import Mathlib

/-!
Verification of `backend/danswer/server/manage/administrative.py`.

Each HTTP handler is shallow-embedded as a pure Lean function over an
explicit environment: every external collaborator (pair repository,
indexing-attempt canceller, admission policy, job queue, file store,
key-value config store, LLM client) is a function-valued field of the
environment, and the handler produces the ordered list of calls it made
to those collaborators (its event trace) together with its result.
-/

namespace Danswer

/-- A structured error leaving a handler: either an `HTTPException`
(status code and detail string), or an uncaught Python exception
propagating out of the handler (a system error). -/
inductive HandlerError where
  | http (status : Nat) (detail : String)
  | system (msg : String)
  deriving DecidableEq, Repr

/-- Source types of connectors, from `danswer.configs.constants.DocumentSource`
(the enum itself is outside this file's source; only the `FILE` member is
consulted here, other members are collapsed into representatives). -/
inductive DocumentSource where
  | FILE
  | WEB
  | other
  deriving DecidableEq, Repr

/-- A connector row as consulted by the deletion handler: its `source`
and the `"file_locations"` entry of its `connector_specific_config`. -/
structure Connector where
  source : DocumentSource
  file_locations : List String
  deriving DecidableEq, Repr

/-- A connector/credential pair as returned by
`get_connector_credential_pair`; the handler only consults `cc_pair.connector`. -/
structure ConnectorCredentialPair where
  connector : Connector
  deriving DecidableEq, Repr

/-- One observable call made by `create_deletion_attempt_for_connector_id`
to an external collaborator, in program order. -/
inductive DelEv where
  | lookupPair (connector_id credential_id : Nat)
  | cancelIndexing (connector_id : Nat) (include_secondary_index : Bool)
  | admissionCheck (connector_id credential_id : Nat)
  | submitCleanup (connector_id credential_id : Nat)
  | deleteFile (file_name : String)
  deriving DecidableEq, Repr

/-- The external collaborators of the deletion handler.
`get_connector_credential_pair` is the pair repository lookup;
`check_deletion_attempt_is_allowed` is the admission policy, returning
`some reason` when it reports a disallowed reason and `none` otherwise;
`delete_file_error` models the file store: `some msg` means
`file_store.delete_file` raises an exception with message `msg`. -/
structure DelEnv where
  get_connector_credential_pair : Nat → Nat → Option ConnectorCredentialPair
  check_deletion_attempt_is_allowed : ConnectorCredentialPair → Option String
  delete_file_error : String → Option String

/-- The 404 detail string built by the handler for an absent pair. -/
def notFoundDetail (connector_id credential_id : Nat) : String :=
  "Connector with ID '" ++ toString connector_id ++ "' and credential ID '"
    ++ toString credential_id ++ "' does not exist. Has it already been deleted?"

/-- The synchronous file-cleanup loop
(`for file_name in connector.connector_specific_config["file_locations"]:
file_store.delete_file(file_name)`): each call is an event; an exception
from `delete_file` aborts the loop and propagates. -/
def deleteFilesLoop (env : DelEnv) : List String → List DelEv × Except HandlerError Unit
  | [] => ([], .ok ())
  | f :: fs =>
    match env.delete_file_error f with
    | some msg => ([.deleteFile f], .error (.system msg))
    | none =>
      let rest := deleteFilesLoop env fs
      (.deleteFile f :: rest.1, rest.2)

/-- `create_deletion_attempt_for_connector_id`: look up the pair (404 if
absent), cancel indexing attempts for the connector with
`include_secondary_index=True`, consult the admission policy (400 with
the reason if it returns a truthy, i.e. non-empty, string), enqueue the
cleanup task, and for a `FILE`-source connector delete each configured
file synchronously.  Python truthiness of the disallowed reason is kept:
an empty-string reason does not trigger the 400 branch. -/
def create_deletion_attempt_for_connector_id (env : DelEnv)
    (connector_id credential_id : Nat) : List DelEv × Except HandlerError Unit :=
  match env.get_connector_credential_pair connector_id credential_id with
  | none =>
    ([.lookupPair connector_id credential_id],
     .error (.http 404 (notFoundDetail connector_id credential_id)))
  | some cc_pair =>
    let pre : List DelEv :=
      [.lookupPair connector_id credential_id,
       .cancelIndexing connector_id true,
       .admissionCheck connector_id credential_id]
    let reason := env.check_deletion_attempt_is_allowed cc_pair
    if reason.getD "" ≠ "" then
      (pre, .error (.http 400 (reason.getD "")))
    else
      let pre2 := pre ++ [.submitCleanup connector_id credential_id]
      if cc_pair.connector.source = DocumentSource.FILE then
        let files := deleteFilesLoop env cc_pair.connector.file_locations
        (pre2 ++ files.1, files.2)
      else
        (pre2, .ok ())

/-! ## Cooldown gate: `validate_existing_genai_api_key` -/

/-- One observable external action of `validate_existing_genai_api_key`:
`validateCall` covers the validation step (`get_default_llm` plus
`test_llm`), `storeTime t` is `kv_store.store(GEN_AI_KEY_CHECK_TIME, t)`. -/
inductive GateEv where
  | validateCall
  | storeTime (t : Int)
  deriving DecidableEq, Repr

/-- Outcome of the validation step: `setupError` models `get_default_llm`
raising `ValueError`; `tested msg` models `test_llm` returning `msg`
(`none` for no error). -/
inductive ValidateOutcome where
  | setupError
  | tested (msg : Option String)
  deriving DecidableEq, Repr

/-- Environment of one `validate_existing_genai_api_key` call: the two
`datetime.now` reads (epoch seconds; the second happens after validation,
just before the store), the `GENERATIVE_MODEL_ACCESS_CHECK_FREQ` cooldown
in seconds, and the validation outcome. -/
structure GateEnv where
  curr_time : Int
  curr_time2 : Int
  check_freq : Int
  validate : ValidateOutcome

/-- `validate_existing_genai_api_key`: read the last-check timestamp from
the config store (`kvStore` is the value under `GEN_AI_KEY_CHECK_TIME`,
`none` modelling `ConfigNotFoundError`, which is caught and ignored); if a
record exists and `curr_time - last_check < check_freq` return immediately.
Otherwise validate: a setup error raises 404 "LLM not setup"; a truthy
(non-empty) `test_llm` error raises 400 with it; on success store the
re-read current time.  Returns (trace, config store value after the call,
result). -/
def validate_existing_genai_api_key (env : GateEnv) (kvStore : Option Int) :
    List GateEv × Option Int × Except HandlerError Unit :=
  let inCooldown : Bool :=
    match kvStore with
    | some last_check => decide (env.curr_time - last_check < env.check_freq)
    | none => false
  if inCooldown then
    ([], kvStore, .ok ())
  else
    match env.validate with
    | .setupError => ([.validateCall], kvStore, .error (.http 404 "LLM not setup"))
    | .tested err =>
      if err.getD "" ≠ "" then
        ([.validateCall], kvStore, .error (.http 400 (err.getD "")))
      else
        ([.validateCall, .storeTime env.curr_time2],
         some env.curr_time2, .ok ())

/-! ## `deactivate_user` -/

/-- One observable action of `deactivate_user`: a user lookup by email, or
committing a user row with its new `is_active` flag. -/
inductive UserEv where
  | getUserByEmail (email : String)
  | commitActive (email : String) (is_active : Bool)
  deriving DecidableEq, Repr

/-- Users table as an association list from email to `is_active`. -/
def UserTable := List (String × Bool)

/-- `get_user_by_email` over the association-list table. -/
def get_user_by_email (email : String) (users : UserTable) : Option Bool :=
  match users with
  | [] => none
  | (e, a) :: rest => if e = email then some a else get_user_by_email email rest

/-- Set `is_active := false` for the (first) user with the given email. -/
def setInactive (email : String) (users : UserTable) : UserTable :=
  match users with
  | [] => []
  | (e, a) :: rest =>
    if e = email then (e, false) :: rest else (e, a) :: setInactive email rest

/-- `deactivate_user`: reject self-deactivation with 400 before any lookup;
404 when the target is absent; otherwise set the user inactive and commit.
Returns (trace, table after the call, result). -/
def deactivate_user (current_user_email user_email : String) (users : UserTable) :
    List UserEv × UserTable × Except HandlerError Unit :=
  if current_user_email = user_email then
    ([], users, .error (.http 400 "You cannot deactivate yourself"))
  else
    match get_user_by_email user_email users with
    | none =>
      ([.getUserByEmail user_email], users, .error (.http 404 "User not found"))
    | some _ =>
      ([.getUserByEmail user_email, .commitActive user_email false],
       setInactive user_email users, .ok ())

/-! ## Token-budget settings

`update_token_budget_settings` stores
`json.dumps({ENABLE_TOKEN_BUDGET: e, TOKEN_BUDGET: b, TOKEN_BUDGET_TIME_PERIOD: p})`
under the `TOKEN_BUDGET_SETTINGS` key and `get_token_budget_settings`
returns `json.loads` of that key.  The `json` module and the constants
module are outside this file's source, so serialization is modelled
concretely: `dumpsSettings` produces the exact character sequence Python's
`json.dumps` emits for this three-key dict (insertion order, default
separators), and `parseSettings` is a parser for that object grammar,
standing in for `json.loads` on such inputs. -/

/-- The decimal digit character for `d < 10`, as Python's `json.dumps`
prints integer digits. -/
def digitChar (d : Nat) : Char := Char.ofNat (48 + d)

/-- Decimal representation of a natural number, most significant digit
first; matches Python's rendering of a non-negative `int`. -/
def natDigits (n : Nat) : List Char :=
  if n < 10 then [digitChar n]
  else natDigits (n / 10) ++ [digitChar (n % 10)]
  termination_by n
  decreasing_by exact Nat.div_lt_self (by omega) (by omega)

/-- The value of a decimal digit character, `none` for a non-digit. -/
def digitVal (c : Char) : Option Nat :=
  if 48 ≤ c.toNat ∧ c.toNat ≤ 57 then some (c.toNat - 48) else none

/-- Consume a maximal run of digit characters, accumulating their value. -/
def parseNatAux : List Char → Nat → Nat × List Char
  | [], acc => (acc, [])
  | c :: cs, acc =>
    match digitVal c with
    | some d => parseNatAux cs (acc * 10 + d)
    | none => (acc, c :: cs)

/-- Parse a decimal number (at least one digit required). -/
def parseNat (cs : List Char) : Option (Nat × List Char) :=
  match cs with
  | [] => none
  | c :: _ => if (digitVal c).isSome then some (parseNatAux cs 0) else none

/-- Consume an expected literal prefix. -/
def expectStr : List Char → List Char → Option (List Char)
  | [], cs => some cs
  | _ :: _, [] => none
  | p :: ps, c :: cs => if p = c then expectStr ps cs else none

/-- JSON boolean literals, as `json.dumps` prints Python booleans. -/
def boolLit : Bool → List Char
  | true => "true".data
  | false => "false".data

/-- Parse a JSON boolean literal. -/
def parseBool (cs : List Char) : Option (Bool × List Char) :=
  match expectStr "true".data cs with
  | some rest => some (true, rest)
  | none =>
    match expectStr "false".data cs with
    | some rest => some (false, rest)
    | none => none

/-- The characters `{"enable_token_budget": ` opening the dumped object
(`ENABLE_TOKEN_BUDGET = "enable_token_budget"`). -/
def jsonOpenKey1 : List Char := '\x7b' :: "\"enable_token_budget\": ".data

/-- The characters `, "token_budget": ` (`TOKEN_BUDGET = "token_budget"`). -/
def jsonSep2 : List Char := ',' :: " \"token_budget\": ".data

/-- The characters `, "token_budget_time_period": `
(`TOKEN_BUDGET_TIME_PERIOD = "token_budget_time_period"`). -/
def jsonSep3 : List Char := ',' :: " \"token_budget_time_period\": ".data

/-- The closing brace of the dumped object. -/
def jsonClose : List Char := ['\x7d']

/-- `json.dumps({"enable_token_budget": e, "token_budget": b,
"token_budget_time_period": p})` with Python's default separators and
insertion order, as built by `update_token_budget_settings`. -/
def dumpsSettings (e : Bool) (b p : Nat) : List Char :=
  jsonOpenKey1 ++ (boolLit e ++ (jsonSep2 ++ (natDigits b ++
    (jsonSep3 ++ (natDigits p ++ jsonClose)))))

/-- `json.loads` restricted to the settings-object grammar: returns the
`(enable_token_budget, token_budget, token_budget_time_period)` values of
a well-formed dump, `none` (a decode error) otherwise. -/
def parseSettings (cs : List Char) : Option (Bool × Nat × Nat) :=
  match expectStr jsonOpenKey1 cs with
  | none => none
  | some cs1 =>
    match parseBool cs1 with
    | none => none
    | some (e, cs2) =>
      match expectStr jsonSep2 cs2 with
      | none => none
      | some cs3 =>
        match parseNat cs3 with
        | none => none
        | some (b, cs4) =>
          match expectStr jsonSep3 cs4 with
          | none => none
          | some cs5 =>
            match parseNat cs5 with
            | none => none
            | some (p, cs6) =>
              match expectStr jsonClose cs6 with
              | none => none
              | some cs7 => if cs7 = [] then some (e, b, p) else none

/-- `update_token_budget_settings`: serialize the three values and store
the JSON string under `TOKEN_BUDGET_SETTINGS` (the store's value for that
key is `kvStore`).  Returns the store after the call and the response
message. -/
def update_token_budget_settings (enable_token_budget : Bool)
    (token_budget token_budget_time_period : Nat)
    (_kvStore : Option (List Char)) : Option (List Char) × String :=
  (some (dumpsSettings enable_token_budget token_budget token_budget_time_period),
   "Token budget settings updated successfully.")

/-- `get_token_budget_settings`: 400 if the token budget is not globally
enabled; 404 when the key is absent (`ConfigNotFoundError`); otherwise
`json.loads` the stored string (a decode failure would propagate as an
uncaught exception). -/
def get_token_budget_settings (tokenBudgetGloballyEnabled : Bool)
    (kvStore : Option (List Char)) : Except HandlerError (Bool × Nat × Nat) :=
  if !tokenBudgetGloballyEnabled then
    .error (.http 400 "Token budget is not enabled in the application.")
  else
    match kvStore with
    | none => .error (.http 404 "Token budget settings not found.")
    | some s =>
      match parseSettings s with
      | some settings => .ok settings
      | none => .error (.system "json decode error")

/-! ## Trace helpers and concrete environments -/

/-- Number of occurrences of event `e` in trace `tr`. -/
def countEv (tr : List DelEv) (e : DelEv) : Nat :=
  (tr.filter (fun x => decide (x = e))).length

/-- A file-sourced pair whose config lists two file locations (the
scenario of the spec: source `"file"`, config `["a.pdf", "b.pdf"]`). -/
def sampleFilePair : ConnectorCredentialPair :=
  ⟨⟨DocumentSource.FILE, ["a.pdf", "b.pdf"]⟩⟩

/-- Environment where only pair `(1, 2)` exists, the admission policy
allows, and every file deletion succeeds. -/
def envAllowFile : DelEnv where
  get_connector_credential_pair := fun cid crid =>
    if cid = 1 ∧ crid = 2 then some sampleFilePair else none
  check_deletion_attempt_is_allowed := fun _ => none
  delete_file_error := fun _ => none

/-- Environment where every pair exists and the admission policy denies
with the reason "deletion already in progress". -/
def envDeny : DelEnv where
  get_connector_credential_pair := fun _ _ => some sampleFilePair
  check_deletion_attempt_is_allowed := fun _ => some "deletion already in progress"
  delete_file_error := fun _ => none

/-- Environment where every pair exists, admission allows, and deleting
`"b.pdf"` raises. -/
def envFailDelete : DelEnv where
  get_connector_credential_pair := fun _ _ => some sampleFilePair
  check_deletion_attempt_is_allowed := fun _ => none
  delete_file_error := fun f => if f = "b.pdf" then some "delete failed" else none

/-- Gate environment whose validation succeeds. -/
def gateEnvOk : GateEnv where
  curr_time := 150
  curr_time2 := 160
  check_freq := 86400
  validate := .tested none

/-- Gate environment whose validation succeeds, called when the recorded
timestamp is long stale. -/
def gateEnvStale : GateEnv where
  curr_time := 100000
  curr_time2 := 100010
  check_freq := 86400
  validate := .tested none

/-- Gate environment where `get_default_llm` raises `ValueError`. -/
def gateEnvSetupErr : GateEnv where
  curr_time := 150
  curr_time2 := 160
  check_freq := 86400
  validate := .setupError

/-! ## Serialization round-trip lemmas -/

lemma expectStr_append (p rest : List Char) : expectStr p (p ++ rest) = some rest := by
  induction p with
  | nil => rfl
  | cons c cs ih => simp [expectStr, ih]

lemma digitVal_digitChar (d : Nat) (h : d < 10) : digitVal (digitChar d) = some d := by
  interval_cases d <;> rfl

lemma parseNatAux_natDigits (n : Nat) : ∀ acc rest,
    parseNatAux (natDigits n ++ rest) acc
      = parseNatAux rest (acc * 10 ^ (natDigits n).length + n) := by
  induction n using Nat.strong_induction_on with
  | _ n ih =>
    intro acc rest
    by_cases h : n < 10
    · rw [natDigits]
      simp only [h, if_true, List.cons_append, List.nil_append, List.length_cons,
        List.length_nil]
      simp [parseNatAux, digitVal_digitChar n h]
    · rw [natDigits]
      simp only [h, if_false, List.append_assoc, List.cons_append, List.nil_append,
        List.length_append, List.length_cons, List.length_nil]
      rw [ih (n / 10) (Nat.div_lt_self (by omega) (by omega))]
      simp [parseNatAux, digitVal_digitChar (n % 10) (Nat.mod_lt n (by omega))]
      have hp : 10 ^ ((natDigits (n / 10)).length + 1)
          = 10 ^ (natDigits (n / 10)).length * 10 := pow_succ 10 _
      rw [hp]
      congr 1
      have := Nat.div_add_mod n 10
      set k := 10 ^ (natDigits (n / 10)).length
      ring_nf
      omega

lemma natDigits_head (n : Nat) :
    ∃ c cs, natDigits n = c :: cs ∧ (digitVal c).isSome := by
  induction n using Nat.strong_induction_on with
  | _ n ih =>
    by_cases h : n < 10
    · refine ⟨digitChar n, [], ?_, ?_⟩
      · rw [natDigits]; simp [h]
      · rw [digitVal_digitChar n h]; rfl
    · obtain ⟨c, cs, hcons, hdig⟩ := ih (n / 10) (Nat.div_lt_self (by omega) (by omega))
      refine ⟨c, cs ++ [digitChar (n % 10)], ?_, hdig⟩
      rw [natDigits]
      simp [h, hcons]

lemma parseNat_natDigits (n : Nat) (c : Char) (cs : List Char)
    (hc : digitVal c = none) :
    parseNat (natDigits n ++ (c :: cs)) = some (n, c :: cs) := by
  obtain ⟨d, ds, hds, hd⟩ := natDigits_head n
  have haux := parseNatAux_natDigits n 0 (c :: cs)
  rw [hds]
  rw [hds] at haux
  simp only [List.cons_append] at haux ⊢
  simp only [parseNat, hd, if_true]
  rw [haux]
  simp [parseNatAux, hc]

lemma parseBool_boolLit (b : Bool) (rest : List Char) :
    parseBool (boolLit b ++ rest) = some (b, rest) := by
  cases b <;> rfl

lemma parseSettings_dumpsSettings (e : Bool) (b p : Nat) :
    parseSettings (dumpsSettings e b p) = some (e, b, p) := by
  have hb : parseNat (natDigits b ++ (jsonSep3 ++ (natDigits p ++ jsonClose)))
      = some (b, jsonSep3 ++ (natDigits p ++ jsonClose)) :=
    parseNat_natDigits b ',' _ rfl
  have hp : parseNat (natDigits p ++ jsonClose) = some (p, jsonClose) :=
    parseNat_natDigits p '\x7d' [] rfl
  have hclose : expectStr jsonClose jsonClose = some [] := rfl
  simp only [parseSettings, dumpsSettings, expectStr_append, parseBool_boolLit,
    hb, hp, hclose, if_true]

/-! ## Deletion-handler characterization lemmas -/

lemma del_lookup_none (env : DelEnv) (cid crid : Nat)
    (h : env.get_connector_credential_pair cid crid = none) :
    create_deletion_attempt_for_connector_id env cid crid
      = ([.lookupPair cid crid], .error (.http 404 (notFoundDetail cid crid))) := by
  unfold create_deletion_attempt_for_connector_id
  rw [h]

lemma del_denied (env : DelEnv) (cid crid : Nat) (pair : ConnectorCredentialPair)
    (r : String) (h1 : env.get_connector_credential_pair cid crid = some pair)
    (h2 : env.check_deletion_attempt_is_allowed pair = some r) (h3 : r ≠ "") :
    create_deletion_attempt_for_connector_id env cid crid
      = ([.lookupPair cid crid, .cancelIndexing cid true, .admissionCheck cid crid],
         .error (.http 400 r)) := by
  unfold create_deletion_attempt_for_connector_id
  rw [h1]
  simp only [h2, Option.getD_some]
  rw [if_pos h3]

lemma del_admitted_file (env : DelEnv) (cid crid : Nat) (pair : ConnectorCredentialPair)
    (h1 : env.get_connector_credential_pair cid crid = some pair)
    (h2 : (env.check_deletion_attempt_is_allowed pair).getD "" = "")
    (h3 : pair.connector.source = DocumentSource.FILE) :
    create_deletion_attempt_for_connector_id env cid crid
      = ([.lookupPair cid crid, .cancelIndexing cid true, .admissionCheck cid crid,
          .submitCleanup cid crid]
           ++ (deleteFilesLoop env pair.connector.file_locations).1,
         (deleteFilesLoop env pair.connector.file_locations).2) := by
  unfold create_deletion_attempt_for_connector_id
  rw [h1]
  simp only [h2, ne_eq, not_true_eq_false, if_false, h3, if_true]
  rfl

lemma del_admitted_nonfile (env : DelEnv) (cid crid : Nat) (pair : ConnectorCredentialPair)
    (h1 : env.get_connector_credential_pair cid crid = some pair)
    (h2 : (env.check_deletion_attempt_is_allowed pair).getD "" = "")
    (h3 : pair.connector.source ≠ DocumentSource.FILE) :
    create_deletion_attempt_for_connector_id env cid crid
      = ([.lookupPair cid crid, .cancelIndexing cid true, .admissionCheck cid crid,
          .submitCleanup cid crid], .ok ()) := by
  unfold create_deletion_attempt_for_connector_id
  rw [h1]
  simp only [h2, ne_eq, not_true_eq_false, if_false, h3, if_true]
  rfl

lemma deleteFilesLoop_all_ok (env : DelEnv) : ∀ files : List String,
    (∀ f ∈ files, env.delete_file_error f = none) →
    deleteFilesLoop env files = (files.map DelEv.deleteFile, .ok ()) := by
  intro files
  induction files with
  | nil => intro _; rfl
  | cons f fs ih =>
    intro h
    have hf : env.delete_file_error f = none := h f (by simp)
    have hfs := ih (fun g hg => h g (by simp [hg]))
    simp [deleteFilesLoop, hf, hfs]

lemma deleteFilesLoop_err (env : DelEnv) (f msg : String)
    (hf : env.delete_file_error f = some msg) :
    ∀ pre : List String, (∀ g ∈ pre, env.delete_file_error g = none) →
    ∀ post : List String,
    deleteFilesLoop env (pre ++ f :: post)
      = ((pre ++ [f]).map DelEv.deleteFile, .error (.system msg)) := by
  intro pre
  induction pre with
  | nil => intro _ post; simp [deleteFilesLoop, hf]
  | cons g gs ih =>
    intro h post
    have hg : env.delete_file_error g = none := h g (by simp)
    have hrec := ih (fun x hx => h x (by simp [hx])) post
    simp [deleteFilesLoop, hg, hrec]

lemma countEv_append (a b : List DelEv) (e : DelEv) :
    countEv (a ++ b) e = countEv a e + countEv b e := by
  simp [countEv, List.filter_append]

lemma countEv_map_deleteFile (locs : List String) (cid crid : Nat) :
    countEv (locs.map DelEv.deleteFile) (DelEv.submitCleanup cid crid) = 0 := by
  simp [countEv]

lemma countEv_submit_trace (cid crid : Nat) (locs : List String) :
    countEv ([DelEv.lookupPair cid crid, DelEv.cancelIndexing cid true,
              DelEv.admissionCheck cid crid, DelEv.submitCleanup cid crid]
               ++ locs.map DelEv.deleteFile) (DelEv.submitCleanup cid crid) = 1 := by
  rw [countEv_append, countEv_map_deleteFile]
  simp [countEv]

/-! ## Cooldown-gate characterization lemmas -/

lemma gate_in_cooldown (env : GateEnv) (last : Int)
    (h : env.curr_time - last < env.check_freq) :
    validate_existing_genai_api_key env (some last) = ([], some last, .ok ()) := by
  unfold validate_existing_genai_api_key
  simp [h]

lemma gate_validates (env : GateEnv) (kv : Option Int)
    (hreach : kv = none ∨ ∃ last, kv = some last ∧ env.check_freq ≤ env.curr_time - last) :
    validate_existing_genai_api_key env kv =
      match env.validate with
      | .setupError => ([.validateCall], kv, .error (.http 404 "LLM not setup"))
      | .tested err =>
        if err.getD "" ≠ "" then
          ([.validateCall], kv, .error (.http 400 (err.getD "")))
        else
          ([.validateCall, .storeTime env.curr_time2], some env.curr_time2, .ok ()) := by
  unfold validate_existing_genai_api_key
  rcases hreach with h | ⟨last, hl, hge⟩
  · subst h
    rfl
  · subst hl
    have hd : decide (env.curr_time - last < env.check_freq) = false := by
      simp only [decide_eq_false_iff_not, not_lt]
      exact hge
    simp only [hd, Bool.false_eq_true, if_false]

/-! ## Claim theorems -/

/-- C1: for every deletion request whose pair exists, the cancellation of
indexing attempts for the connector (with `include_secondary_index = true`)
appears in the call trace immediately before the admission-policy check:
the trace always starts with lookup, then cancellation, then the admission
check, so the policy is never consulted before cancellation has run. -/
theorem deletion_cancel_precedes_admission (env : DelEnv) (cid crid : Nat)
    (pair : ConnectorCredentialPair)
    (h : env.get_connector_credential_pair cid crid = some pair) :
    ∃ rest, (create_deletion_attempt_for_connector_id env cid crid).1
      = DelEv.lookupPair cid crid :: DelEv.cancelIndexing cid true
        :: DelEv.admissionCheck cid crid :: rest := by
  by_cases hall : (env.check_deletion_attempt_is_allowed pair).getD "" = ""
  · by_cases hs : pair.connector.source = DocumentSource.FILE
    · rw [del_admitted_file env cid crid pair h hall hs]
      exact ⟨_, rfl⟩
    · rw [del_admitted_nonfile env cid crid pair h hall hs]
      exact ⟨_, rfl⟩
  · obtain ⟨r, hr, hne⟩ : ∃ r, env.check_deletion_attempt_is_allowed pair = some r
        ∧ r ≠ "" := by
      cases hc : env.check_deletion_attempt_is_allowed pair with
      | none => rw [hc] at hall; simp at hall
      | some r => rw [hc] at hall; exact ⟨r, rfl, by simpa using hall⟩
    rw [del_denied env cid crid pair r h hr hne]
    exact ⟨[], rfl⟩

theorem deletion_cancel_precedes_admission_witness :
    envAllowFile.get_connector_credential_pair 1 2 = some sampleFilePair
    ∧ ∃ rest, (create_deletion_attempt_for_connector_id envAllowFile 1 2).1
      = DelEv.lookupPair 1 2 :: DelEv.cancelIndexing 1 true
        :: DelEv.admissionCheck 1 2 :: rest :=
  ⟨by decide, deletion_cancel_precedes_admission envAllowFile 1 2 sampleFilePair (by decide)⟩

/-- C2: a deletion request for an absent pair makes exactly one external
call — the pair lookup — and fails with HTTP 404 whose detail is the
verbatim message naming both possible causes ("does not exist" / "Has it
already been deleted?"); the admission policy, job queue and file store
are never reached (no such event is in the trace). -/
theorem deletion_absent_pair_notfound (env : DelEnv) (cid crid : Nat)
    (h : env.get_connector_credential_pair cid crid = none) :
    create_deletion_attempt_for_connector_id env cid crid
      = ([DelEv.lookupPair cid crid],
         .error (.http 404 ("Connector with ID '" ++ toString cid
           ++ "' and credential ID '" ++ toString crid
           ++ "' does not exist. Has it already been deleted?"))) :=
  del_lookup_none env cid crid h

theorem deletion_absent_pair_notfound_witness :
    envAllowFile.get_connector_credential_pair 7 3 = none
    ∧ create_deletion_attempt_for_connector_id envAllowFile 7 3
      = ([DelEv.lookupPair 7 3],
         .error (.http 404 ("Connector with ID '" ++ toString 7
           ++ "' and credential ID '" ++ toString 3
           ++ "' does not exist. Has it already been deleted?"))) :=
  ⟨by decide, deletion_absent_pair_notfound envAllowFile 7 3 (by decide)⟩

/-- C3: when the pair exists and the admission policy returns a (truthy)
disallowed reason, the handler fails with HTTP 400 carrying that reason
verbatim; the trace ends at the admission check — no cleanup job is
submitted and no file is deleted — and still contains the cancellation
event, which is not rolled back. -/
theorem deletion_admission_denied (env : DelEnv) (cid crid : Nat)
    (pair : ConnectorCredentialPair) (r : String)
    (h1 : env.get_connector_credential_pair cid crid = some pair)
    (h2 : env.check_deletion_attempt_is_allowed pair = some r)
    (h3 : r ≠ "") :
    create_deletion_attempt_for_connector_id env cid crid
      = ([DelEv.lookupPair cid crid, DelEv.cancelIndexing cid true,
          DelEv.admissionCheck cid crid],
         .error (.http 400 r)) :=
  del_denied env cid crid pair r h1 h2 h3

theorem deletion_admission_denied_witness :
    envDeny.check_deletion_attempt_is_allowed sampleFilePair
        = some "deletion already in progress"
    ∧ create_deletion_attempt_for_connector_id envDeny 1 2
      = ([DelEv.lookupPair 1 2, DelEv.cancelIndexing 1 true,
          DelEv.admissionCheck 1 2],
         .error (.http 400 "deletion already in progress")) :=
  ⟨by decide,
   deletion_admission_denied envDeny 1 2 sampleFilePair
     "deletion already in progress" (by decide) (by decide) (by decide)⟩

/-- C4: when the pair exists and the admission policy allows, exactly one
cleanup job carrying `(connector_id, credential_id)` appears in the trace;
for a `FILE`-source connector whose config lists N file locations (all
deletions succeeding), the trace is lookup, cancel, admission check,
job submission, then exactly one file-deletion call per location, and the
handler returns success; for any other source the handler returns success
right after the job submission. -/
theorem deletion_admitted_submits_once_and_deletes_files (env : DelEnv)
    (cid crid : Nat) (pair : ConnectorCredentialPair)
    (h1 : env.get_connector_credential_pair cid crid = some pair)
    (h2 : env.check_deletion_attempt_is_allowed pair = none)
    (h3 : ∀ f ∈ pair.connector.file_locations, env.delete_file_error f = none) :
    countEv (create_deletion_attempt_for_connector_id env cid crid).1
        (DelEv.submitCleanup cid crid) = 1
    ∧ (pair.connector.source = DocumentSource.FILE →
        create_deletion_attempt_for_connector_id env cid crid
          = ([DelEv.lookupPair cid crid, DelEv.cancelIndexing cid true,
              DelEv.admissionCheck cid crid, DelEv.submitCleanup cid crid]
               ++ pair.connector.file_locations.map DelEv.deleteFile,
             .ok ()))
    ∧ (pair.connector.source ≠ DocumentSource.FILE →
        create_deletion_attempt_for_connector_id env cid crid
          = ([DelEv.lookupPair cid crid, DelEv.cancelIndexing cid true,
              DelEv.admissionCheck cid crid, DelEv.submitCleanup cid crid],
             .ok ())) := by
  have hall : (env.check_deletion_attempt_is_allowed pair).getD "" = "" := by
    rw [h2]; rfl
  have hloop := deleteFilesLoop_all_ok env pair.connector.file_locations h3
  by_cases hs : pair.connector.source = DocumentSource.FILE
  · have heq : create_deletion_attempt_for_connector_id env cid crid
        = ([DelEv.lookupPair cid crid, DelEv.cancelIndexing cid true,
            DelEv.admissionCheck cid crid, DelEv.submitCleanup cid crid]
             ++ pair.connector.file_locations.map DelEv.deleteFile,
           .ok ()) := by
      rw [del_admitted_file env cid crid pair h1 hall hs, hloop]
    have hfst : (create_deletion_attempt_for_connector_id env cid crid).1
        = [DelEv.lookupPair cid crid, DelEv.cancelIndexing cid true,
           DelEv.admissionCheck cid crid, DelEv.submitCleanup cid crid]
             ++ pair.connector.file_locations.map DelEv.deleteFile := by
      rw [heq]
    refine ⟨?_, fun _ => heq, fun hne => absurd hs hne⟩
    rw [hfst]
    exact countEv_submit_trace cid crid pair.connector.file_locations
  · have heq := del_admitted_nonfile env cid crid pair h1 hall hs
    have hfst : (create_deletion_attempt_for_connector_id env cid crid).1
        = [DelEv.lookupPair cid crid, DelEv.cancelIndexing cid true,
           DelEv.admissionCheck cid crid, DelEv.submitCleanup cid crid] := by
      rw [heq]
    refine ⟨?_, fun hf => absurd hf hs, fun _ => heq⟩
    rw [hfst]
    simp [countEv]

theorem deletion_admitted_submits_once_and_deletes_files_witness :
    countEv (create_deletion_attempt_for_connector_id envAllowFile 1 2).1
        (DelEv.submitCleanup 1 2) = 1
    ∧ (sampleFilePair.connector.source = DocumentSource.FILE →
        create_deletion_attempt_for_connector_id envAllowFile 1 2
          = ([DelEv.lookupPair 1 2, DelEv.cancelIndexing 1 true,
              DelEv.admissionCheck 1 2, DelEv.submitCleanup 1 2]
               ++ sampleFilePair.connector.file_locations.map DelEv.deleteFile,
             .ok ()))
    ∧ (sampleFilePair.connector.source ≠ DocumentSource.FILE →
        create_deletion_attempt_for_connector_id envAllowFile 1 2
          = ([DelEv.lookupPair 1 2, DelEv.cancelIndexing 1 true,
              DelEv.admissionCheck 1 2, DelEv.submitCleanup 1 2],
             .ok ())) :=
  deletion_admitted_submits_once_and_deletes_files envAllowFile 1 2 sampleFilePair
    (by decide) (by decide) (by decide)

/-- C5: for an admitted deletion of a `FILE`-source connector, if one of
the file-deletion calls raises, the error propagates out of the handler as
an uncaught system error (the deletions before the failing one having
happened), and the already-submitted cleanup job remains in the trace —
the enqueue is not rolled back. -/
theorem deletion_file_error_propagates (env : DelEnv) (cid crid : Nat)
    (pair : ConnectorCredentialPair) (pre post : List String) (f msg : String)
    (h1 : env.get_connector_credential_pair cid crid = some pair)
    (h2 : env.check_deletion_attempt_is_allowed pair = none)
    (h3 : pair.connector.source = DocumentSource.FILE)
    (h4 : pair.connector.file_locations = pre ++ f :: post)
    (h5 : ∀ g ∈ pre, env.delete_file_error g = none)
    (h6 : env.delete_file_error f = some msg) :
    create_deletion_attempt_for_connector_id env cid crid
      = ([DelEv.lookupPair cid crid, DelEv.cancelIndexing cid true,
          DelEv.admissionCheck cid crid, DelEv.submitCleanup cid crid]
           ++ (pre ++ [f]).map DelEv.deleteFile,
         .error (.system msg))
    ∧ DelEv.submitCleanup cid crid
        ∈ (create_deletion_attempt_for_connector_id env cid crid).1 := by
  have hall : (env.check_deletion_attempt_is_allowed pair).getD "" = "" := by
    rw [h2]; rfl
  have heq := del_admitted_file env cid crid pair h1 hall h3
  rw [h4, deleteFilesLoop_err env f msg h6 pre h5 post] at heq
  refine ⟨heq, ?_⟩
  rw [show (create_deletion_attempt_for_connector_id env cid crid).1
      = [DelEv.lookupPair cid crid, DelEv.cancelIndexing cid true,
         DelEv.admissionCheck cid crid, DelEv.submitCleanup cid crid]
           ++ (pre ++ [f]).map DelEv.deleteFile from by rw [heq]]
  simp

theorem deletion_file_error_propagates_witness :
    envFailDelete.delete_file_error "b.pdf" = some "delete failed"
    ∧ (create_deletion_attempt_for_connector_id envFailDelete 1 2
        = ([DelEv.lookupPair 1 2, DelEv.cancelIndexing 1 true,
            DelEv.admissionCheck 1 2, DelEv.submitCleanup 1 2]
             ++ (["a.pdf"] ++ ["b.pdf"]).map DelEv.deleteFile,
           .error (.system "delete failed"))
      ∧ DelEv.submitCleanup 1 2
          ∈ (create_deletion_attempt_for_connector_id envFailDelete 1 2).1) :=
  ⟨by decide,
   deletion_file_error_propagates envFailDelete 1 2 sampleFilePair
     ["a.pdf"] [] "b.pdf" "delete failed"
     (by decide) (by decide) (by decide) (by decide) (by decide) (by decide)⟩

/-- C6: the cooldown gate skips validation while in cooldown, and a missing
record is the normal first-run path: whenever a last-check record exists
and the elapsed time since it is below the cooldown duration, the handler
returns success immediately and its trace is empty (the validation call is
never invoked and the store is untouched); and on an absent record the
handler's first external action is the validation call — no error arises
from the missing record. -/
theorem cooldown_skip_and_first_run (env : GateEnv) (kv : Option Int) :
    (∀ last, kv = some last → env.curr_time - last < env.check_freq →
      validate_existing_genai_api_key env kv = ([], kv, .ok ()))
    ∧ ((validate_existing_genai_api_key env none).1).head?
        = some GateEv.validateCall := by
  constructor
  · intro last hkv hlt
    subst hkv
    exact gate_in_cooldown env last hlt
  · rw [gate_validates env none (Or.inl rfl)]
    split
    · rfl
    · split
      · rfl
      · rfl

theorem cooldown_skip_and_first_run_witness :
    ((150 : Int) - 100 < 86400)
    ∧ validate_existing_genai_api_key gateEnvOk (some 100) = ([], some 100, .ok ())
    ∧ ((validate_existing_genai_api_key gateEnvOk none).1).head?
        = some GateEv.validateCall :=
  ⟨by decide,
   (cooldown_skip_and_first_run gateEnvOk (some 100)).1 100 rfl (by decide),
   (cooldown_skip_and_first_run gateEnvOk none).2⟩

/-- C7: after a successful validation (the gate was reached past the
cooldown and `test_llm` reported no truthy error), the handler stores the
re-read current time as the new last-check timestamp, unconditionally
overwriting whatever `kv` held; a subsequent call within the cooldown
duration of that new timestamp returns success without re-invoking the
validation call. -/
theorem cooldown_timestamp_advances (env : GateEnv) (kv : Option Int)
    (hreach : kv = none
      ∨ ∃ last, kv = some last ∧ env.check_freq ≤ env.curr_time - last)
    (hok : ∃ err, env.validate = .tested err ∧ err.getD "" = "") :
    validate_existing_genai_api_key env kv
      = ([GateEv.validateCall, GateEv.storeTime env.curr_time2],
         some env.curr_time2, .ok ())
    ∧ ∀ env2 : GateEnv, env2.curr_time - env.curr_time2 < env2.check_freq →
        validate_existing_genai_api_key env2 (some env.curr_time2)
          = ([], some env.curr_time2, .ok ()) := by
  obtain ⟨err, hv, he⟩ := hok
  constructor
  · rw [gate_validates env kv hreach, hv]
    simp [he]
  · intro env2 h2
    exact gate_in_cooldown env2 env.curr_time2 h2

theorem cooldown_timestamp_advances_witness :
    validate_existing_genai_api_key gateEnvStale (some 10)
      = ([GateEv.validateCall, GateEv.storeTime 100010], some 100010, .ok ())
    ∧ ∀ env2 : GateEnv, env2.curr_time - 100010 < env2.check_freq →
        validate_existing_genai_api_key env2 (some 100010)
          = ([], some 100010, .ok ()) :=
  cooldown_timestamp_advances gateEnvStale (some 10)
    (Or.inr ⟨10, rfl, by decide⟩) ⟨none, rfl, rfl⟩

/-- C8: when the gate reaches the validation step, a setup error
(`get_default_llm` raising `ValueError`) yields HTTP 404 "LLM not setup",
while a truthy `test_llm` error message yields HTTP 400 carrying that
message; the two statuses are distinct, and in both cases the config store
value is unchanged (no timestamp is persisted). -/
theorem genai_validation_failure_modes (env : GateEnv) (kv : Option Int)
    (hreach : kv = none
      ∨ ∃ last, kv = some last ∧ env.check_freq ≤ env.curr_time - last) :
    (env.validate = .setupError →
      validate_existing_genai_api_key env kv
        = ([GateEv.validateCall], kv, .error (.http 404 "LLM not setup")))
    ∧ (∀ msg, env.validate = .tested (some msg) → msg ≠ "" →
      validate_existing_genai_api_key env kv
        = ([GateEv.validateCall], kv, .error (.http 400 msg))) := by
  constructor
  · intro hv
    rw [gate_validates env kv hreach, hv]
  · intro msg hv hmsg
    rw [gate_validates env kv hreach, hv]
    simp [hmsg]

theorem genai_validation_failure_modes_witness :
    (gateEnvSetupErr.validate = .setupError →
      validate_existing_genai_api_key gateEnvSetupErr none
        = ([GateEv.validateCall], none, .error (.http 404 "LLM not setup")))
    ∧ (∀ msg, gateEnvSetupErr.validate = .tested (some msg) → msg ≠ "" →
      validate_existing_genai_api_key gateEnvSetupErr none
        = ([GateEv.validateCall], none, .error (.http 400 msg))) :=
  genai_validation_failure_modes gateEnvSetupErr none (Or.inl rfl)

/-- C9: when the requesting admin's email equals the target email,
`deactivate_user` fails with HTTP 400 "You cannot deactivate yourself"
before any user lookup or modification: its trace is empty and the users
table is returned unchanged. -/
theorem deactivate_user_self_rejected (current_user_email user_email : String)
    (users : UserTable) (h : current_user_email = user_email) :
    deactivate_user current_user_email user_email users
      = ([], users, .error (.http 400 "You cannot deactivate yourself")) := by
  unfold deactivate_user
  rw [if_pos h]

theorem deactivate_user_self_rejected_witness :
    deactivate_user "admin@example.com" "admin@example.com"
        [("admin@example.com", true)]
      = ([], [("admin@example.com", true)],
         .error (.http 400 "You cannot deactivate yourself")) :=
  deactivate_user_self_rejected "admin@example.com" "admin@example.com"
    [("admin@example.com", true)] rfl

/-- C10: storing token-budget settings `(e, b, p)` (with `p ≥ 1`, as the
request validation enforces) and then reading them back with the token
budget globally enabled returns exactly `(e, b, p)`: the store-then-load
round trip through JSON serialization is the identity on these settings. -/
theorem token_budget_roundtrip (e : Bool) (b p : Nat) (kv : Option (List Char))
    (_hp : 1 ≤ p) :
    get_token_budget_settings true
        (update_token_budget_settings e b p kv).1 = .ok (e, b, p) := by
  simp [get_token_budget_settings, update_token_budget_settings,
    parseSettings_dumpsSettings]

theorem token_budget_roundtrip_witness :
    1 ≤ 2
    ∧ get_token_budget_settings true
        (update_token_budget_settings true 5 2 none).1 = .ok (true, 5, 2) :=
  ⟨by decide, token_budget_roundtrip true 5 2 none (by decide)⟩

end Danswer
